import Mathlib

/-!
Shallow embedding of the baremetalvmm sources (Go) that the claims touch:
`internal/image/image.go` (packages `image` and `firecracker`) and
`internal/mount/mount.go` (package `mount`).  Operating-system effects
(file existence, `os.Stat`, signal probes, external commands) are passed
in explicitly as booleans / oracles; the control flow and arithmetic are
translated line by line from the Go source.
-/

namespace BareMetalVMM

/-! ### package firecracker: liveness probe (`IsRunning`, image.go 412-437)

`os.FindProcess` never fails on Unix (the source comments this), so the
probe outcome is the result of `process.Signal(syscall.Signal(0))`:
success, `EPERM`, `ESRCH` (no such process), or some other error. -/

inductive SignalResult
  | ok
  | eperm
  | esrch
  | otherErr
deriving DecidableEq, Repr

/-- Function `IsRunning(socketPath, pid)` from image.go: `socketExists` is the result
of `os.Stat(socketPath)` succeeding; `probe` is the signal-0 outcome,
consulted only when `pid > 0`. -/
def IsRunning (socketExists : Bool) (pid : Int) (probe : SignalResult) : Bool :=
  if !socketExists then
    false
  else if pid > 0 then
    match probe with
    | .ok => true
    | .eperm => true
    | .esrch => false
    | .otherErr => false
  else
    true

/-! ### package firecracker: `StartVM` kernel args and drive list (image.go 253-320) -/

/-- Base kernel arguments hard-coded in `StartVM`. -/
def baseKernelArgs : String := "console=ttyS0 reboot=k panic=1 pci=off"

/-- Kernel-argument computation in `StartVM` (image.go 265-275): use the
override if non-empty, else the base args; then append the static-IP
parameter when both IP and gateway are configured. -/
def buildKernelArgs (override ip gateway : String) : String :=
  let kernelArgs := if override = "" then baseKernelArgs else override
  if ip ≠ "" ∧ gateway ≠ "" then
    kernelArgs ++ " ip=" ++ ip ++ "::" ++ gateway ++ ":255.255.0.0::eth0:off"
  else
    kernelArgs

/-- Structure `MountDrive` from image.go 230-234. -/
structure MountDrive where
  ImagePath : String
  Tag : String
  ReadOnly : Bool
deriving DecidableEq, Repr

/-- Structure `models.Drive` as populated by `StartVM`. -/
structure Drive where
  DriveID : String
  PathOnHost : String
  IsRootDevice : Bool
  IsReadOnly : Bool
deriving DecidableEq, Repr

/-- The `for i, mountDrive := range cfg.MountDrives` loop of `StartVM`
(image.go 288-296), carrying the running index `i`. -/
def mountDrivesFrom (i : Nat) : List MountDrive → List Drive
  | [] => []
  | d :: ds =>
      { DriveID := "mount" ++ toString i
        PathOnHost := d.ImagePath
        IsRootDevice := false
        IsReadOnly := d.ReadOnly } :: mountDrivesFrom (i + 1) ds

/-- The drive list built by `StartVM` (image.go 277-296): the rootfs drive
first, then one drive per configured mount. -/
def buildDrives (rootfsPath : String) (mounts : List MountDrive) : List Drive :=
  { DriveID := "rootfs"
    PathOnHost := rootfsPath
    IsRootDevice := true
    IsReadOnly := false } :: mountDrivesFrom 0 mounts

/-! ### package image: `CreateVMRootfs` (image.go 71-93) -/

inductive RootfsErr
  | sourceMissing
  | copyFailed
deriving DecidableEq, Repr

def DefaultRootfsName : String := "rootfs.ext4"

/-- Function `CreateVMRootfs` from image.go: returns the destination path if it
already exists; otherwise fails when the default rootfs is absent, then
copies.  `dstExists`/`srcExists` are the two `os.Stat` outcomes and
`copyOk` the outcome of `copyFile`. -/
def CreateVMRootfs (vmName vmDir : String)
    (dstExists srcExists copyOk : Bool) : Except RootfsErr String :=
  let dstPath := vmDir ++ "/" ++ vmName ++ ".ext4"
  if dstExists then
    .ok dstPath
  else if !srcExists then
    .error .sourceMissing
  else if !copyOk then
    .error .copyFailed
  else
    .ok dstPath

/-! ### package mount: sizing arithmetic (mount.go 26-130, 239-257)

`filepath.Walk` visits files and directories; only non-directory entries
contribute their size.  A host directory is modelled as the list of
visited entries. -/

/-- One entry visited by `filepath.Walk` in `calculateDirSize`. -/
structure FSEntry where
  isDir : Bool
  size : Nat
deriving DecidableEq, Repr

/-- The running byte total of `calculateDirSize`'s walk (mount.go 241-250). -/
def dirTotalBytes (entries : List FSEntry) : Nat :=
  entries.foldl (fun acc e => if e.isDir then acc else acc + e.size) 0

/-- Function `calculateDirSize` (mount.go 239-257): total bytes rounded up to MB. -/
def calculateDirSize (entries : List FSEntry) : Nat :=
  (dirTotalBytes entries + 1024 * 1024 - 1) / (1024 * 1024)

/-- The size step shared by `CreateMountImage` (mount.go 51-55) and
`SyncMountImage` (mount.go 106-109):
`sizeMB = int(float64(sizeMB) * 1.2); if sizeMB < 16 { sizeMB = 16 }`.
Go's `int(...)` conversion truncates toward zero, and for every directory
size below about 2^50 MB the double-precision product `float64(s) * 1.2`
truncates to exactly `6*s/5` in integer division (the relative rounding
error of the product is below 2^-52, far smaller than the 1/5 gap to the
next integer, and when `6*s/5` is exact the product rounds back to it),
so the conversion is embedded as Nat floor division by 5. -/
def inflateSizeMB (sizeMB : Nat) : Nat :=
  let sizeMB := 6 * sizeMB / 5
  if sizeMB < 16 then 16 else sizeMB

/-- The image capacity in MB computed by `CreateMountImage` (mount.go 45-55)
for a host directory with the given walk entries. -/
def createImageSizeMB (entries : List FSEntry) : Nat :=
  inflateSizeMB (calculateDirSize entries)

/-- The resize step of `SyncMountImage` (mount.go 101-130): recompute the
required size, read the current image size in whole MB
(`int(imgInfo.Size() / (1024*1024))`, truncating), and truncate the file
to the required size only when strictly larger.  Returns the image file's
size in bytes after the step. -/
def syncImageNewSize (entries : List FSEntry) (currentBytes : Nat) : Nat :=
  let sizeMB := createImageSizeMB entries
  let currentSizeMB := currentBytes / (1024 * 1024)
  if sizeMB > currentSizeMB then sizeMB * 1024 * 1024 else currentBytes

/-! ### package mount: `CreateMountImage` control flow (mount.go 26-78) -/

inductive CreateErr
  | hostMissing
  | hostNotDir
  | mkdirFailed
  | truncateFailed
  | mkfsFailed
  | copyFailed
deriving DecidableEq, Repr

/-- Outcomes of the OS steps `CreateMountImage` performs, in source order. -/
structure CreateEnv where
  hostExists : Bool
  hostIsDir : Bool
  mkdirOk : Bool
  truncateOk : Bool
  mkfsOk : Bool
  copyOk : Bool
deriving DecidableEq, Repr

/-- What a run of `CreateMountImage` did to the image file. -/
structure CreateOutcome where
  result : Except CreateErr Unit
  imageCreated : Bool
  imageRemoved : Bool
deriving Repr

/-- Function `CreateMountImage` (mount.go 26-78) step by step: stat the host path,
require a directory, `MkdirAll` the mounts dir, `truncate` the sparse
image file into existence, `mkfs.ext4`, then copy the host files in; on
`mkfs` or copy failure the image file is `os.Remove`d before the error
returns. -/
def createMountImageRun (env : CreateEnv) : CreateOutcome :=
  if !env.hostExists then
    ⟨.error .hostMissing, false, false⟩
  else if !env.hostIsDir then
    ⟨.error .hostNotDir, false, false⟩
  else if !env.mkdirOk then
    ⟨.error .mkdirFailed, false, false⟩
  else if !env.truncateOk then
    ⟨.error .truncateFailed, false, false⟩
  else if !env.mkfsOk then
    ⟨.error .mkfsFailed, true, true⟩
  else if !env.copyOk then
    ⟨.error .copyFailed, true, true⟩
  else
    ⟨.ok (), true, false⟩

/-! ### package mount: mount-spec parsing (mount.go 259-344) -/

/-- Structure `vm.Mount` as populated by `ParseMountSpec`. -/
structure Mount where
  HostPath : String
  GuestTag : String
  ReadOnly : Bool
deriving DecidableEq, Repr

/-- Split a character list at its last colon: `some (before, after)`, or
`none` when no colon occurs.  This is the backwards scan
`for i := len(remaining) - 1; i >= 0; i--` of `splitMountSpec`
(mount.go 307-313, 325-331). -/
def splitLastColon : List Char → Option (List Char × List Char)
  | [] => none
  | c :: cs =>
      match splitLastColon cs with
      | some (pre, post) => some (c :: pre, post)
      | none => if c = ':' then some ([], cs) else none

/-- Function `splitMountSpec` (mount.go 301-344): take the field after the last
colon; if it is `"ro"` or `"rw"` it is the mode and the scan repeats once
for the tag, otherwise it is the tag; no colon at all yields a single
field. -/
def splitMountSpec (spec : String) : List String :=
  match splitLastColon spec.data with
  | none => [spec]
  | some (remaining, lastPart) =>
      if lastPart = "ro".data ∨ lastPart = "rw".data then
        match splitLastColon remaining with
        | none => [⟨remaining⟩, ⟨lastPart⟩]
        | some (path, tag) => [⟨path⟩, ⟨tag⟩, ⟨lastPart⟩]
      else
        [⟨remaining⟩, ⟨lastPart⟩]

inductive ParseErr
  | badShape
  | badMode
  | pathNotFound
  | invalidTag
deriving DecidableEq, Repr

/-- The per-character tag test of `ParseMountSpec` (mount.go 291). -/
def validTagChar (c : Char) : Bool :=
  ('a' ≤ c ∧ c ≤ 'z') ∨ ('A' ≤ c ∧ c ≤ 'Z') ∨ ('0' ≤ c ∧ c ≤ '9') ∨ c = '-' ∨ c = '_'

/-- Function `ParseMountSpec` (mount.go 260-297): split the spec, require two or
three fields, read an optional `ro`/`rw` mode, check the host path exists
(`pathExists` stands for `os.Stat`), and validate every tag character.
The Go loop errors on the first offending character, so it succeeds
exactly when all characters pass. -/
def ParseMountSpec (pathExists : String → Bool) (spec : String) :
    Except ParseErr Mount :=
  match splitMountSpec spec with
  | [hostPath, tag] =>
      if !pathExists hostPath then .error .pathNotFound
      else if !tag.data.all validTagChar then .error .invalidTag
      else .ok ⟨hostPath, tag, false⟩
  | [hostPath, tag, mode] =>
      if mode == "ro" || mode == "rw" then
        if !pathExists hostPath then .error .pathNotFound
        else if !tag.data.all validTagChar then .error .invalidTag
        else .ok ⟨hostPath, tag, mode == "ro"⟩
      else .error .badMode
  | _ => .error .badShape

/-- Modelled from the spec's words for claim C4 only, for comparison with
`createImageSizeMB`: capacity `max(16, ceil(ceil(totalBytes / 2^20) * 1.2))`,
the ×1.2 inflation rounding **up** (`ceil(6s/5) = (6s+4)/5`). -/
def specImageSizeMB (entries : List FSEntry) : Nat :=
  max 16 ((6 * calculateDirSize entries + 4) / 5)

/-! ## Theorems -/

/-- C1: `IsRunning` returns not-running whenever the socket file is absent,
regardless of pid; when the socket exists and `pid > 0`, an `EPERM` probe
yields running, a no-such-process probe yields not-running, and a
successful probe yields running. -/
theorem isRunning_probe_policy :
    (∀ (pid : Int) (probe : SignalResult), IsRunning false pid probe = false) ∧
    (∀ pid : Int, 0 < pid →
      IsRunning true pid .eperm = true ∧
      IsRunning true pid .esrch = false ∧
      IsRunning true pid .ok = true) := by
  refine ⟨fun pid probe => rfl, fun pid hpid => ?_⟩
  simp [IsRunning, hpid]

/-- Witness for C1 at socket-absent with pid 7, and socket-present pid 3. -/
theorem isRunning_probe_policy_witness :
    IsRunning false 7 .ok = false ∧
    (IsRunning true 3 .eperm = true ∧
      IsRunning true 3 .esrch = false ∧
      IsRunning true 3 .ok = true) :=
  ⟨isRunning_probe_policy.1 7 .ok, isRunning_probe_policy.2 3 (by decide)⟩

/-- C10: for `pid ≤ 0` the signal probe is skipped, so `IsRunning` reports
running whenever the socket file exists, whatever the probe would say. -/
theorem isRunning_nonpositive_pid (pid : Int) (probe : SignalResult)
    (h : pid ≤ 0) : IsRunning true pid probe = true := by
  have h' : ¬pid > 0 := not_lt.mpr h
  simp [IsRunning, h']

/-- Witness for C10 at pid 0 with a no-such-process probe. -/
theorem isRunning_nonpositive_pid_witness :
    IsRunning true 0 .esrch = true :=
  isRunning_nonpositive_pid 0 .esrch (by decide)

/-- C5: with no kernel-args override, both IP and gateway set produce
exactly the base args followed by the static-IP parameter with netmask
255.255.0.0; if either is empty the args are exactly the base string. -/
theorem startVM_kernel_args (ip gateway : String) :
    (ip ≠ "" → gateway ≠ "" →
      buildKernelArgs "" ip gateway =
        "console=ttyS0 reboot=k panic=1 pci=off ip=" ++ ip ++ "::" ++
          gateway ++ ":255.255.0.0::eth0:off") ∧
    (ip = "" ∨ gateway = "" →
      buildKernelArgs "" ip gateway = "console=ttyS0 reboot=k panic=1 pci=off") := by
  constructor
  · intro h1 h2
    show (if ip ≠ "" ∧ gateway ≠ "" then
        baseKernelArgs ++ " ip=" ++ ip ++ "::" ++ gateway ++ ":255.255.0.0::eth0:off"
      else baseKernelArgs) = _
    rw [if_pos ⟨h1, h2⟩]
    rfl
  · intro h
    have h' : ¬(ip ≠ "" ∧ gateway ≠ "") := by
      rcases h with h | h <;> simp [h]
    show (if ip ≠ "" ∧ gateway ≠ "" then
        baseKernelArgs ++ " ip=" ++ ip ++ "::" ++ gateway ++ ":255.255.0.0::eth0:off"
      else baseKernelArgs) = _
    rw [if_neg h']
    rfl

/-- Witness for C5 at a concrete IP/gateway pair and at an empty gateway. -/
theorem startVM_kernel_args_witness :
    buildKernelArgs "" "10.0.1.2" "10.0.0.1" =
      "console=ttyS0 reboot=k panic=1 pci=off ip=" ++ "10.0.1.2" ++ "::" ++
        "10.0.0.1" ++ ":255.255.0.0::eth0:off" ∧
    buildKernelArgs "" "10.0.1.2" "" = "console=ttyS0 reboot=k panic=1 pci=off" :=
  ⟨(startVM_kernel_args "10.0.1.2" "10.0.0.1").1 (by decide) (by decide),
   (startVM_kernel_args "10.0.1.2" "").2 (Or.inr rfl)⟩

/-- C6: `SyncMountImage` never decreases the image file's size — the file
is truncated to the recomputed size only when strictly larger than the
current whole-MB size, and that truncation can only grow the file. -/
theorem syncMountImage_no_shrink (entries : List FSEntry) (currentBytes : Nat) :
    currentBytes ≤ syncImageNewSize entries currentBytes := by
  simp only [syncImageNewSize]
  split
  · next h =>
      have hdm := Nat.div_add_mod currentBytes (1024 * 1024)
      have hlt : currentBytes % (1024 * 1024) < 1024 * 1024 :=
        Nat.mod_lt _ (by norm_num)
      omega
  · exact le_rfl

/-- C8 counterexample: with the per-VM destination rootfs already present
and the shared default rootfs absent, `CreateVMRootfs` succeeds (returns
the destination path) instead of failing. -/
theorem createVMRootfs_cex :
    CreateVMRootfs "vm1" "/vms" true false true = .ok "/vms/vm1.ext4" := rfl

/-- C8 amended: `CreateVMRootfs` fails with the source-missing error when
the shared default rootfs does not exist, provided the per-VM destination
rootfs does not already exist (the idempotent early return fires first
otherwise). -/
theorem createVMRootfs_source_missing (vmName vmDir : String) (copyOk : Bool) :
    CreateVMRootfs vmName vmDir false false copyOk = .error .sourceMissing := by
  simp [CreateVMRootfs]

/-- Indexing into the mount-drive loop: the `j`-th drive produced when the
loop counter starts at `k` carries drive ID `"mount" ++ toString (k + j)`
and the `j`-th mount's image path and read-only flag. -/
theorem mountDrivesFrom_getElem (k j : Nat) (ds : List MountDrive) :
    (mountDrivesFrom k ds)[j]? =
      (ds[j]?).map fun d =>
        { DriveID := "mount" ++ toString (k + j)
          PathOnHost := d.ImagePath
          IsRootDevice := false
          IsReadOnly := d.ReadOnly } := by
  induction ds generalizing k j with
  | nil => simp [mountDrivesFrom]
  | cons d ds ih =>
      cases j with
      | zero => simp [mountDrivesFrom]
      | succ j =>
          simp only [mountDrivesFrom, List.getElem?_cons_succ, ih (k + 1) j]
          have : k + 1 + j = k + (j + 1) := by omega
          rw [this]

/-- C2: the drive list built by `StartVM` has length `n + 1` for `n`
configured mounts; its head is the writable root device `"rootfs"`, and
entry `i + 1` is the non-root drive `"mount i"` carrying the `i`-th
mount's image path and read-only flag, in declaration order. -/
theorem startVM_drive_order (rootfsPath : String) (mounts : List MountDrive) :
    (buildDrives rootfsPath mounts).length = mounts.length + 1 ∧
    (buildDrives rootfsPath mounts)[0]? =
      some { DriveID := "rootfs", PathOnHost := rootfsPath,
             IsRootDevice := true, IsReadOnly := false } ∧
    ∀ (i : Nat) (d : MountDrive), mounts[i]? = some d →
      (buildDrives rootfsPath mounts)[i + 1]? =
        some { DriveID := "mount" ++ toString i, PathOnHost := d.ImagePath,
               IsRootDevice := false, IsReadOnly := d.ReadOnly } := by
  refine ⟨?_, by simp [buildDrives], ?_⟩
  · have : ∀ (k : Nat) (ds : List MountDrive),
        (mountDrivesFrom k ds).length = ds.length := by
      intro k ds
      induction ds generalizing k with
      | nil => rfl
      | cons d ds ih => simp [mountDrivesFrom, ih]
    simp [buildDrives, this]
  · intro i d hd
    simp only [buildDrives, List.getElem?_cons_succ, mountDrivesFrom_getElem 0 i, hd,
      Nat.zero_add]
    rfl

/-- Witness for C2: a VM with two mounts yields `[rootfs, mount0, mount1]`
with `mount0` bound to the first-declared mount. -/
theorem startVM_drive_order_witness :
    (buildDrives "/r.ext4" [⟨"/i0", "t0", true⟩, ⟨"/i1", "t1", false⟩]).length = 3 ∧
    (buildDrives "/r.ext4" [⟨"/i0", "t0", true⟩, ⟨"/i1", "t1", false⟩])[1]? =
      some { DriveID := "mount" ++ toString 0, PathOnHost := "/i0",
             IsRootDevice := false, IsReadOnly := true } :=
  ⟨(startVM_drive_order "/r.ext4" _).1,
   (startVM_drive_order "/r.ext4" _).2.2 0 ⟨"/i0", "t0", true⟩ rfl⟩

/-- C7: whenever `CreateMountImage` created the image file and then
returned an error (filesystem creation or the host-file copy failed), it
removed the image file first; on success the image file is left in place. -/
theorem createMountImage_cleanup (env : CreateEnv)
    (hc : (createMountImageRun env).imageCreated = true)
    (he : (createMountImageRun env).result ≠ .ok ()) :
    (createMountImageRun env).imageRemoved = true := by
  rcases env with ⟨a, b, c, d, e, f⟩
  cases a <;> cases b <;> cases c <;> cases d <;> cases e <;> cases f <;>
    simp_all [createMountImageRun]

/-- Witness for C7: a run in which `mkfs.ext4` fails after the image file
was created removes the image file. -/
theorem createMountImage_cleanup_witness :
    (createMountImageRun ⟨true, true, true, true, false, true⟩).imageRemoved = true :=
  createMountImage_cleanup ⟨true, true, true, true, false, true⟩ rfl (by simp [createMountImageRun])

/-- C4 counterexample: a host directory whose files total exactly 14 MB
(14,680,064 bytes).  The code truncates `14 * 1.2 = 16.8` to 16 MB, while
the claimed round-up formula gives 17 MB. -/
theorem createImageSize_cex :
    createImageSizeMB [⟨false, 14680064⟩] = 16 ∧
    specImageSizeMB [⟨false, 14680064⟩] = 17 := by
  constructor <;> rfl

/-- C4 amended: the computed capacity is
`max(16, floor(ceil(totalBytes / 2^20) * 1.2))` — the byte total is
rounded up to whole MB, the ×1.2 inflation **truncates** (Go's `int`
conversion) rather than rounding up, and the result is floored at 16 MB;
the capacity always covers the directory's bytes, and files totaling
10,485,760 bytes still yield 16 MB. -/
theorem createImageSize_formula :
    (∀ entries : List FSEntry,
      createImageSizeMB entries =
        max 16 (6 * ((dirTotalBytes entries + 1024 * 1024 - 1) / (1024 * 1024)) / 5)) ∧
    (∀ entries : List FSEntry,
      dirTotalBytes entries ≤ createImageSizeMB entries * (1024 * 1024)) ∧
    createImageSizeMB [⟨false, 10485760⟩] = 16 := by
  refine ⟨fun entries => ?_, fun entries => ?_, rfl⟩
  · simp only [createImageSizeMB, inflateSizeMB, calculateDirSize]
    split <;> omega
  · simp only [createImageSizeMB, inflateSizeMB, calculateDirSize]
    have hdm := Nat.div_add_mod (dirTotalBytes entries + 1024 * 1024 - 1) (1024 * 1024)
    have hlt : (dirTotalBytes entries + 1024 * 1024 - 1) % (1024 * 1024) < 1024 * 1024 :=
      Nat.mod_lt _ (by norm_num)
    set s := (dirTotalBytes entries + 1024 * 1024 - 1) / (1024 * 1024) with hs
    split
    · next h => omega
    · next h =>
        have h5 := Nat.div_add_mod (6 * s) 5
        have h5' : 6 * s % 5 < 5 := Nat.mod_lt _ (by norm_num)
        omega

/-- A character list without a colon has no last-colon split. -/
theorem splitLastColon_of_not_mem (l : List Char) (h : ':' ∉ l) :
    splitLastColon l = none := by
  induction l with
  | nil => rfl
  | cons c cs ih =>
      have hc : ¬c = ':' := fun hcc => h (hcc ▸ List.mem_cons_self c cs)
      have hcs : ':' ∉ cs := fun hm => h (List.mem_cons_of_mem c hm)
      simp [splitLastColon, ih hcs, hc]

/-- Splitting at the last colon of `l₁ ++ ':' :: l₂` when `l₂` is
colon-free yields `(l₁, l₂)`. -/
theorem splitLastColon_append (l₁ l₂ : List Char) (h : ':' ∉ l₂) :
    splitLastColon (l₁ ++ ':' :: l₂) = some (l₁, l₂) := by
  induction l₁ with
  | nil => simp [splitLastColon, splitLastColon_of_not_mem l₂ h]
  | cons c cs ih => simp [splitLastColon, ih]

theorem string_data_append (s t : String) : (s ++ t).data = s.data ++ t.data := by
  rcases s with ⟨ls⟩
  rcases t with ⟨lt⟩
  rfl

theorem string_mk_data (s : String) : String.mk s.data = s := rfl

/-- C3 counterexample: on `"foo:ro"` (one colon, last field `ro`) the
parser makes `ro` the **tag** and defaults to read-write, instead of
treating `ro` as the mode as the claimed right-to-left grammar demands. -/
theorem parseMountSpec_single_suffix_cex :
    ParseMountSpec (fun p => p == "foo") "foo:ro" =
      .ok { HostPath := "foo", GuestTag := "ro", ReadOnly := false } := rfl

/-- C3 amended: scanning colons from the right, a colon-free last field
that is not `ro`/`rw` is the tag with read-write default, and a `ro`/`rw`
last field **preceded by at least one more colon** is the mode with the
field before it as the tag and everything further left (embedded colons
included) as the host path; when `ro`/`rw` follows the only colon it is
instead taken as the tag.  `"/data:code:ro"` parses to
`(hostPath "/data", tag "code", readOnly true)` and `"/data:code"` parses
read-write, given the host path exists. -/
theorem parseMountSpec_grammar :
    (∀ w t : String, ':' ∉ t.data → t ≠ "ro" → t ≠ "rw" →
      splitMountSpec (w ++ ":" ++ t) = [w, t]) ∧
    (∀ w t m : String, ':' ∉ t.data → (m = "ro" ∨ m = "rw") →
      splitMountSpec (w ++ ":" ++ t ++ ":" ++ m) = [w, t, m]) ∧
    (∀ pe : String → Bool, pe "/data" = true →
      ParseMountSpec pe "/data:code:ro" =
        .ok { HostPath := "/data", GuestTag := "code", ReadOnly := true } ∧
      ParseMountSpec pe "/data:code" =
        .ok { HostPath := "/data", GuestTag := "code", ReadOnly := false }) := by
  refine ⟨?_, ?_, ?_⟩
  · intro w t ht hro hrw
    have hd : (w ++ ":" ++ t).data = w.data ++ ':' :: t.data := by
      rcases w with ⟨lw⟩
      rcases t with ⟨lt⟩
      simp [string_data_append]
    have hne : ¬(t.data = "ro".data ∨ t.data = "rw".data) := by
      rintro (h | h)
      · exact hro (by rw [← string_mk_data t, h])
      · exact hrw (by rw [← string_mk_data t, h])
    unfold splitMountSpec
    rw [hd, splitLastColon_append _ _ ht]
    simp [hne]
  · intro w t m ht hm
    have hmc : ':' ∉ m.data := by
      rcases hm with rfl | rfl <;> decide
    have hd : (w ++ ":" ++ t ++ ":" ++ m).data =
        (w.data ++ ':' :: t.data) ++ ':' :: m.data := by
      rcases w with ⟨lw⟩
      rcases t with ⟨lt⟩
      rcases m with ⟨lm⟩
      simp [string_data_append]
    have hcond : m.data = "ro".data ∨ m.data = "rw".data := by
      rcases hm with rfl | rfl
      · exact Or.inl rfl
      · exact Or.inr rfl
    unfold splitMountSpec
    rw [hd, splitLastColon_append _ _ hmc]
    simp only [hcond, if_pos]
    rw [splitLastColon_append _ _ ht]
  · intro pe hpe
    have h3 : splitMountSpec "/data:code:ro" = ["/data", "code", "ro"] := rfl
    have h2 : splitMountSpec "/data:code" = ["/data", "code"] := rfl
    constructor
    · unfold ParseMountSpec
      rw [h3]
      simp [hpe]
      decide
    · unfold ParseMountSpec
      rw [h2]
      simp [hpe]
      decide

/-- Witness for C3 amended: the mode rule on a host path with an embedded
colon, the tag rule, and the `"/data:code:ro"` parse. -/
theorem parseMountSpec_grammar_witness :
    splitMountSpec ("/a:b" ++ ":" ++ "c" ++ ":" ++ "ro") = ["/a:b", "c", "ro"] ∧
    splitMountSpec ("/x" ++ ":" ++ "tag1") = ["/x", "tag1"] ∧
    ParseMountSpec (fun p => p == "/data") "/data:code:ro" =
      .ok { HostPath := "/data", GuestTag := "code", ReadOnly := true } :=
  ⟨parseMountSpec_grammar.2.1 "/a:b" "c" "ro" (by decide) (Or.inl rfl),
   parseMountSpec_grammar.1 "/x" "tag1" (by decide) (by decide) (by decide),
   (parseMountSpec_grammar.2.2 (fun p => p == "/data") rfl).1⟩

/-- C9 counterexample: `"/data:"` parses to an **empty** tag and succeeds —
the per-character validation loop never runs, so a tag failing
`[A-Za-z0-9_-]+` (which requires at least one character) is accepted. -/
theorem parseMountSpec_empty_tag_cex :
    ParseMountSpec (fun p => p == "/data") "/data:" =
      .ok { HostPath := "/data", GuestTag := "", ReadOnly := false } := rfl

/-- C9 amended: a successful parse guarantees every tag character lies in
`[A-Za-z0-9_-]` (so any tag containing a character outside that set is
rejected), but the empty tag is not rejected; in particular
`"/data:code!"` never parses successfully. -/
theorem parseMountSpec_tag_charset :
    (∀ (pe : String → Bool) (spec : String) (m : Mount),
      ParseMountSpec pe spec = .ok m → m.GuestTag.data.all validTagChar = true) ∧
    (∀ (pe : String → Bool) (m : Mount),
      ParseMountSpec pe "/data:code!" ≠ .ok m) := by
  constructor
  · intro pe spec m h
    unfold ParseMountSpec at h
    split at h
    · rename_i hostPath tag heq
      by_cases hp : (!pe hostPath) = true
      · rw [if_pos hp] at h
        simp at h
      · rw [if_neg hp] at h
        by_cases htag : (!tag.data.all validTagChar) = true
        · rw [if_pos htag] at h
          simp at h
        · rw [if_neg htag] at h
          injection h with h2
          subst h2
          simpa using htag
    · rename_i hostPath tag mode heq
      by_cases hmode : (mode == "ro" || mode == "rw") = true
      · rw [if_pos hmode] at h
        by_cases hp : (!pe hostPath) = true
        · rw [if_pos hp] at h
          simp at h
        · rw [if_neg hp] at h
          by_cases htag : (!tag.data.all validTagChar) = true
          · rw [if_pos htag] at h
            simp at h
          · rw [if_neg htag] at h
            injection h with h2
            subst h2
            simpa using htag
      · rw [if_neg hmode] at h
        simp at h
    · simp at h
  · intro pe m h
    have hs : splitMountSpec "/data:code!" = ["/data", "code!"] := rfl
    have hall : List.all "code!".data validTagChar = false := by decide
    unfold ParseMountSpec at h
    rw [hs] at h
    cases hpe : pe "/data" <;> simp [hpe, hall] at h

/-- Witness for C9 amended: a successful parse of `"/data:code"` has an
all-valid tag, and `"/data:code!"` is rejected. -/
theorem parseMountSpec_tag_charset_witness :
    (Mount.mk "/data" "code" false).GuestTag.data.all validTagChar = true ∧
    ParseMountSpec (fun _ => true) "/data:code!" ≠
      .ok { HostPath := "/data", GuestTag := "code!", ReadOnly := false } :=
  ⟨parseMountSpec_tag_charset.1 (fun _ => true) "/data:code"
      (Mount.mk "/data" "code" false) rfl,
   parseMountSpec_tag_charset.2 (fun _ => true)
      (Mount.mk "/data" "code!" false)⟩

end BareMetalVMM





